import Mathlib

/-!
Verification of the `datafusion` Python binding shim
(`python/datafusion/__init__.py`): the two convenience constructors
`column` and `literal` that wrap values into expression leaves.

The shallow embedding models the host-language values the shim can
receive, the engine-recognized typed scalars, and the two opaque engine
entry points the shim delegates to.  The shim's own logic is translated
directly from the source; the engine entry points (`pa.scalar` and the
`Expression` leaf constructors), which live outside the supplied source,
are modelled from the specification.
-/

namespace DatafusionPy

/-- Engine-recognized scalar type tags (the `type_tag` of a Typed Scalar). -/
inductive TypeTag
  | int64
  | float64
  | boolean
  | utf8
  | null
deriving DecidableEq

/-- A Typed Scalar: a tagged union pairing one type tag with a payload of the
matching shape, so the invariant "exactly one type_tag consistent with the
payload" holds by construction.  Floating payloads are carried as rationals:
no floating-point arithmetic occurs anywhere in this module, values are only
passed through unchanged. -/
inductive Scalar
  | int64 (n : Int)
  | float64 (q : Rat)
  | boolean (b : Bool)
  | utf8 (s : String)
  | null
deriving DecidableEq

/-- The type tag of a Typed Scalar. -/
def Scalar.typeTag : Scalar → TypeTag
  | .int64 _ => .int64
  | .float64 _ => .float64
  | .boolean _ => .boolean
  | .utf8 _ => .utf8
  | .null => .null

/-- A host-language (Python) Value as supplied to `column` or `literal`.
`scalar cls s` is a pyarrow scalar object: `cls` records its concrete class
name (e.g. "Int64Scalar", "DoubleScalar"), while `s` is the typed scalar it
carries; the `isinstance(value, pa.Scalar)` test in the source sees only the
scalar capability, never the concrete class name.  `obj cls` is an
unrecognized composite object of class `cls`. -/
inductive PyValue
  | int (n : Int)
  | float (q : Rat)
  | bool (b : Bool)
  | str (s : String)
  | none
  | scalar (cls : String) (s : Scalar)
  | obj (cls : String)
deriving DecidableEq

/-- `isinstance(value, pa.Scalar)`: true exactly on values carrying the
Typed-Scalar capability, for every concrete class name. -/
def PyValue.isScalar : PyValue → Bool
  | .scalar _ _ => true
  | _ => false

/-- The single error kind of the coercion step. -/
inductive CoercionError
  | UnsupportedValueType
deriving DecidableEq

/-- Modelled from the spec: the engine-side scalar construction `pa.scalar`
("construct scalar from raw value"), which is outside the supplied source.
Per the spec it maps each native shape to its canonical Typed Scalar
(machine integer to int64, floating value to float64, boolean to boolean,
text to utf8, absence-of-value to null) and fails with `UnsupportedValueType`
on a value it cannot classify.  It is never applied to a value that already
is a Typed Scalar, because `literal` guards that case; the model
conservatively reports failure there. -/
def pa_scalar : PyValue → Except CoercionError Scalar
  | .int n => .ok (.int64 n)
  | .float q => .ok (.float64 q)
  | .bool b => .ok (.boolean b)
  | .str s => .ok (.utf8 s)
  | .none => .ok .null
  | .scalar _ _ => .error .UnsupportedValueType
  | .obj _ => .error .UnsupportedValueType

/-- Modelled from the spec: the engine's opaque expression leaf constructors
(`Expression.column` and `Expression.literal` from the native module).  An
expression leaf is immutable and wraps either a name reference (tagged
"column") or a Typed Scalar (tagged "literal"). -/
inductive Expression
  | column (name : PyValue)
  | literal (s : Scalar)
deriving DecidableEq

/-- The tag of an expression leaf, as named by the spec. -/
def Expression.tag : Expression → String
  | .column _ => "column"
  | .literal _ => "literal"

/-- The name held by a column leaf, if the leaf is a column leaf. -/
def Expression.columnName : Expression → Option PyValue
  | .column v => some v
  | .literal _ => Option.none

/-- The inner scalar of a literal leaf, if the leaf is a literal leaf. -/
def Expression.literalScalar : Expression → Option Scalar
  | .column _ => Option.none
  | .literal s => some s

/-- Translated from the source:
`def column(value): return Expression.column(value)`.
The argument is delegated unchanged, with no local check or conversion; the
return type is `Expression` (not `Except`), so no error is raised locally. -/
def column (value : PyValue) : Expression :=
  Expression.column value

/-- Translated from the source:
`def literal(value):`
`    if not isinstance(value, pa.Scalar): value = pa.scalar(value)`
`    return Expression.literal(value)`.
The `isinstance` test is the match on the scalar-capability variant: a value
that already carries a Typed Scalar is passed to `Expression.literal`
unchanged; any other value is first coerced by `pa_scalar`, whose failure
propagates unchanged to the caller. -/
def literal (value : PyValue) : Except CoercionError Expression :=
  match value with
  | .scalar _ s => .ok (Expression.literal s)
  | v => Except.map Expression.literal (pa_scalar v)

end DatafusionPy

namespace DatafusionPy

/-- Claim C1: for every input value `v` that is not already a Typed Scalar,
`literal v` applies the scalar-coercion step to `v` and wraps the resulting
Typed Scalar in a literal-tagged expression leaf; that is, `literal v` equals
`Expression.literal` mapped over `pa_scalar v`. -/
theorem literal_coerces_nonscalar (v : PyValue) (h : v.isScalar = false) :
    literal v = Except.map Expression.literal (pa_scalar v) := by
  cases v <;> simp_all [PyValue.isScalar, literal]

/-- Witness for C1 at the concrete non-scalar input `3`. -/
theorem literal_coerces_nonscalar_witness :
    (PyValue.int 3).isScalar = false ∧
      literal (PyValue.int 3) =
        Except.map Expression.literal (pa_scalar (PyValue.int 3)) :=
  ⟨rfl, literal_coerces_nonscalar (PyValue.int 3) rfl⟩

/-- Claim C2: for every value that already is a Typed Scalar `s` (under any
concrete class name), `literal` produces a literal leaf wrapping `s` itself,
with no re-coercion, re-wrapping or re-typing: the inner scalar of the leaf
is exactly `s`. -/
theorem literal_scalar_unchanged (cls : String) (s : Scalar) :
    literal (PyValue.scalar cls s) = Except.ok (Expression.literal s) ∧
      (Expression.literal s).literalScalar = some s ∧
      (Expression.literal s).tag = "literal" :=
  ⟨rfl, rfl, rfl⟩

/-- Claim C3: `literal v` fails exactly when `v` lacks the Typed-Scalar
capability and the coercion step fails on it; the only error kind is
`UnsupportedValueType`, and the error value propagates unchanged from the
coercion step to the caller. -/
theorem literal_error_characterization (v : PyValue) (e : CoercionError) :
    literal v = Except.error e ↔
      (v.isScalar = false ∧ pa_scalar v = Except.error e ∧
        e = CoercionError.UnsupportedValueType) := by
  cases v <;> cases e <;>
    simp [literal, pa_scalar, PyValue.isScalar, Except.map]

/-- Claim C4: for every name, `column name` wraps the name directly in a
column-tagged expression leaf holding the name unchanged; `column` returns an
`Expression` (not an `Except`), so it raises no error itself. -/
theorem column_wraps_name (name : String) :
    column (PyValue.str name) = Expression.column (PyValue.str name) ∧
      (column (PyValue.str name)).tag = "column" ∧
      (column (PyValue.str name)).columnName = some (PyValue.str name) :=
  ⟨rfl, rfl, rfl⟩

/-- Claim C5: the canonical type mapping on the end-to-end examples:
`literal 3` is a literal leaf over an int64 scalar with payload 3,
`literal 3.5` a literal leaf over a float64 scalar with payload 3.5,
`literal "abc"` a literal leaf over a utf8 scalar with payload "abc", and
`column "age"` a column leaf holding the name "age". -/
theorem canonical_examples :
    literal (PyValue.int 3) = Except.ok (Expression.literal (Scalar.int64 3)) ∧
      (Scalar.int64 3).typeTag = TypeTag.int64 ∧
      literal (PyValue.float (3.5 : Rat)) =
        Except.ok (Expression.literal (Scalar.float64 (3.5 : Rat))) ∧
      (Scalar.float64 (3.5 : Rat)).typeTag = TypeTag.float64 ∧
      literal (PyValue.str "abc") =
        Except.ok (Expression.literal (Scalar.utf8 "abc")) ∧
      (Scalar.utf8 "abc").typeTag = TypeTag.utf8 ∧
      column (PyValue.str "age") = Expression.column (PyValue.str "age") ∧
      (column (PyValue.str "age")).tag = "column" := by
  refine ⟨rfl, rfl, rfl, rfl, rfl, rfl, rfl, rfl⟩

/-- Claim C6: `literal` applied to the None-equivalent absent value succeeds
and produces a literal leaf wrapping the null-typed scalar, rather than
raising. -/
theorem literal_none_is_null :
    literal PyValue.none = Except.ok (Expression.literal Scalar.null) ∧
      Scalar.null.typeTag = TypeTag.null :=
  ⟨rfl, rfl⟩

/-- Claim C7: the already-a-Typed-Scalar fast path is selected by the
capability discriminant alone: every value carrying a Typed Scalar is
recognized (`isScalar` is true) and is used unchanged, and the result is
identical for every concrete class name, so no class-name comparison can be
involved in the discrimination. -/
theorem literal_fastpath_capability (cls cls' : String) (s : Scalar) :
    (PyValue.scalar cls s).isScalar = true ∧
      literal (PyValue.scalar cls s) = literal (PyValue.scalar cls' s) ∧
      (literal (PyValue.scalar cls s)).toOption =
        some (Expression.literal s) :=
  ⟨rfl, rfl, rfl⟩

/-- Claim C8: on every successful call path of `literal`, the engine's leaf
constructor receives an explicitly-typed scalar: the result is a literal leaf
over some Typed Scalar `s`, where `s` is either the scalar the input already
carried or the output of the coercion step on a non-scalar input. -/
theorem literal_engine_receives_typed_scalar (v : PyValue) (e : Expression)
    (h : literal v = Except.ok e) :
    ∃ s : Scalar, e = Expression.literal s ∧
      ((∃ cls, v = PyValue.scalar cls s) ∨
        (v.isScalar = false ∧ pa_scalar v = Except.ok s)) := by
  cases v <;>
    simp_all [literal, pa_scalar, PyValue.isScalar, Except.map]

/-- Witness for C8 at the concrete input `3`, whose successful result is the
int64 literal leaf. -/
theorem literal_engine_receives_typed_scalar_witness :
    ∃ s : Scalar, Expression.literal (Scalar.int64 3) = Expression.literal s ∧
      ((∃ cls, PyValue.int 3 = PyValue.scalar cls s) ∨
        ((PyValue.int 3).isScalar = false ∧
          pa_scalar (PyValue.int 3) = Except.ok s)) :=
  literal_engine_receives_typed_scalar (PyValue.int 3)
    (Expression.literal (Scalar.int64 3)) rfl

/-- Claim C10: `column` performs no check on its argument: for every input
value of any shape (number, absent value, composite object, already-typed
scalar, not only string identifiers) it delegates the value unchanged to the
engine's column-leaf constructor, with no conversion and no locally raised
error (its return type is total). -/
theorem column_no_typecheck (v : PyValue) :
    column v = Expression.column v ∧
      (column v).tag = "column" ∧
      (column v).columnName = some v :=
  ⟨rfl, rfl, rfl⟩

end DatafusionPy
